import Mathlib

/-!
Shallow embedding of the profile CRUD service in src/Server.js: the data
model of ProfileSchema, the four route handlers (create, read, update,
delete) and the repository and image store interactions they perform.
External collaborators (the document store, the image store, the built in
JSON parser and regular expression engine) are modelled at the interface
granularity the handlers observe, over explicit lists and oracles.
-/

/-- JavaScript whitespace for the purposes of the regular expression
whitespace class and of trim, restricted to the ASCII whitespace
characters the claims exercise. -/
def jsIsWs (c : Char) : Bool :=
  c = ' ' || c = '\t' || c = '\n' || c = '\r' || c = '\x0b' || c = '\x0c'

/-- Model of toLowerCase on the ASCII fragment. -/
def jsToLower (s : String) : String :=
  String.mk (s.data.map Char.toLower)

/-- Model of trim: strip leading and trailing whitespace. -/
def jsTrim (s : String) : String :=
  String.mk (((s.data.dropWhile jsIsWs).reverse.dropWhile jsIsWs).reverse)

/-- Model of the global replacement of one-or-more-whitespace by a hyphen
used on Server.js line 76: each maximal run of whitespace characters
becomes a single hyphen. The Boolean argument records whether the previous
character was inside a whitespace run. -/
def collapseWsGo : Bool → List Char → List Char
  | _, [] => []
  | inRun, c :: cs =>
    if jsIsWs c then
      if inRun then collapseWsGo true cs else '-' :: collapseWsGo true cs
    else c :: collapseWsGo false cs

/-- The profileKey derivation on Server.js line 76: lower case the
username, then collapse every whitespace run into one hyphen. -/
def toProfileKey (u : String) : String :=
  String.mk (collapseWsGo false (jsToLower u).data)

/-- Model of replace with a plain string pattern of a single hyphen
(Server.js line 171), which in JavaScript substitutes only the first
occurrence. -/
def replaceFirstHyphenGo : List Char → List Char
  | [] => []
  | c :: cs => if c = '-' then ' ' :: cs else c :: replaceFirstHyphenGo cs

def jsReplaceFirstHyphen (s : String) : String :=
  String.mk (replaceFirstHyphenGo s.data)

/-- Characters with a special meaning inside a JavaScript regular
expression, other than the dot which the matcher below models as the
wildcard. Keys avoiding these characters are exactly the fragment on which
the matcher agrees with the JavaScript engine. -/
def regexSpecials : List Char :=
  ['\\', '^', '$', '*', '+', '?', '(', ')', '[', ']', '\x7b', '\x7d', '|']

def modelValidKey (s : String) : Bool :=
  s.data.all (fun c => !(regexSpecials.contains c))

/-- One pattern character against one subject character under the i flag:
a dot matches any character, anything else matches up to letter case. -/
def patCharMatch (p c : Char) : Bool :=
  p == '.' || p.toLower == c.toLower

/-- Model of an anchored case insensitive regular expression built by
splicing the raw key between the two anchors, tested against a subject
string, for keys whose characters avoid regexSpecials. -/
def regexMatchCI : List Char → List Char → Bool
  | [], [] => true
  | p :: ps, c :: cs => patCharMatch p c && regexMatchCI ps cs
  | _, _ => false

def usernameMatches (pat : String) (u : String) : Bool :=
  regexMatchCI pat.data u.data

/-- The nested socialLinks subdocument of ProfileSchema. -/
structure SocialLinks where
  website : Option String
  instagram : Option String
  facebook : Option String
  telegram : Option String
  tiktok : Option String
  youtube : Option String
  whatsapp : Option String
  maps : Option String
  snapchat : Option String
deriving DecidableEq, Repr

def emptySocialLinks : SocialLinks :=
  { website := none, instagram := none, facebook := none, telegram := none,
    tiktok := none, youtube := none, whatsapp := none, maps := none,
    snapchat := none }

/-- A ProfileSchema document. Required paths are Option valued because a
document is first built from the request and only validated by save; the
Boolean paths carry the schema default false. -/
structure ProfileDoc where
  username : Option String
  name : Option String
  jobTitle : Option String
  profileImage : Option String
  headerImage : Option String
  phone : Option String
  email : Option String
  isVerified : Bool
  isCompany : Bool
  socialLinks : SocialLinks
deriving DecidableEq, Repr

/-- The JSON response a handler sends: the HTTP status plus the body
fields the handlers populate. -/
structure Resp where
  status : Nat
  message : Option String := none
  error : Option String := none
  profileKey : Option String := none
  profile : Option ProfileDoc := none
deriving DecidableEq, Repr

/-- findOne with an exact username filter, as the create pre check and the
read endpoint use it: case sensitive equality. -/
def findOneExact (db : List ProfileDoc) (u : String) : Option ProfileDoc :=
  db.find? (fun p => p.username == some u)

inductive DbErr where
  | validationFailed (msg : String)
  | duplicateKey
deriving DecidableEq, Repr

/-- The required String path check of the schema: the value is present and
not the empty string. -/
def presentStr : Option String → Bool
  | none => false
  | some s => !s.data.isEmpty

def validateDoc (d : ProfileDoc) : Bool :=
  presentStr d.username && presentStr d.name && presentStr d.jobTitle

/-- Model of save on a new document: schema validation first, then the
insert, which the unique index on username rejects with the duplicate key
error, surfaced as code 11000, when an equal username is already stored. -/
def insertDoc (db : List ProfileDoc) (d : ProfileDoc) : Except DbErr (List ProfileDoc) :=
  if !validateDoc d then Except.error (DbErr.validationFailed "Profile validation failed")
  else if db.any (fun p => p.username == d.username) then Except.error DbErr.duplicateKey
  else Except.ok (db ++ [d])

/-- The create request: body fields plus the two optional file buffers. -/
structure CreateReq where
  username : Option String
  name : Option String
  jobTitle : Option String
  phone : Option String
  email : Option String
  isVerified : Option Bool
  isCompany : Option Bool
  socialLinks : Option SocialLinks
  profileImageFile : Option (List Nat)
  headerImageFile : Option (List Nat)
deriving DecidableEq, Repr

/-- The validation on Server.js lines 72 to 74: rejected when the username
is missing or falsy or its trimmed length is below 3. -/
def usernameMissingOrShort : Option String → Bool
  | none => true
  | some u => u.data.isEmpty || decide ((jsTrim u).data.length < 3)

/-- One optional image upload in the create handler: with no file attached
the URL stays the empty string and no upload call is made; otherwise the
image store oracle is called once and may fail. Returns the URL together
with the number of upload calls performed. -/
def uploadOne (upload : List Nat → Except String String) :
    Option (List Nat) → Except String (String × Nat)
  | none => Except.ok ("", 0)
  | some buf =>
    match upload buf with
    | Except.ok url => Except.ok (url, 1)
    | Except.error e => Except.error e

/-- Aggregate outcome of the create handler: the response, the repository
contents afterwards, and how many image store and repository calls were
made. -/
structure SaveOutcome where
  resp : Resp
  db : List ProfileDoc
  uploadCalls : Nat
  repoCalls : Nat
deriving DecidableEq, Repr

/-- The document built on Server.js lines 125 to 136 from the request body
and the upload URLs. -/
def docFromCreate (req : CreateReq) (pUrl hUrl : String) : ProfileDoc :=
  { username := req.username, name := req.name, jobTitle := req.jobTitle,
    profileImage := some pUrl, headerImage := some hUrl,
    phone := req.phone, email := req.email,
    isVerified := req.isVerified.getD false, isCompany := req.isCompany.getD false,
    socialLinks := req.socialLinks.getD emptySocialLinks }

/-- The POST save-profile handler, Server.js lines 68 to 148. The
repository is consulted twice: the duplicate pre check reads db while the
insert runs against dbAtInsert, which may differ when a concurrent request
committed in between; the sequential case passes the same list twice. The
catch maps the duplicate key error to a 400 and every other thrown error,
including schema validation failures and upload rejections, to a 500 that
carries the thrown message in the error field. -/
def save_profile (upload : List Nat → Except String String)
    (db dbAtInsert : List ProfileDoc) (req : CreateReq) : SaveOutcome :=
  if usernameMissingOrShort req.username then
    { resp := { status := 400, message := some "Username must be at least 3 characters long." },
      db := db, uploadCalls := 0, repoCalls := 0 }
  else
    match findOneExact db (req.username.getD "") with
    | some _ =>
      { resp := { status := 400, message := some "Username is already taken." },
        db := db, uploadCalls := 0, repoCalls := 1 }
    | none =>
      match uploadOne upload req.profileImageFile with
      | Except.error e =>
        { resp := { status := 500, message := some "Server error", error := some e },
          db := db, uploadCalls := 1, repoCalls := 1 }
      | Except.ok (pUrl, n1) =>
        match uploadOne upload req.headerImageFile with
        | Except.error e =>
          { resp := { status := 500, message := some "Server error", error := some e },
            db := db, uploadCalls := n1 + 1, repoCalls := 1 }
        | Except.ok (hUrl, n2) =>
          match insertDoc dbAtInsert (docFromCreate req pUrl hUrl) with
          | Except.ok db2 =>
            { resp := { status := 201, message := some "Profile saved successfully",
                        profileKey := some (toProfileKey (req.username.getD "")),
                        profile := some (docFromCreate req pUrl hUrl) },
              db := db2, uploadCalls := n1 + n2, repoCalls := 2 }
          | Except.error DbErr.duplicateKey =>
            { resp := { status := 400, message := some "Profile key or username already exists." },
              db := dbAtInsert, uploadCalls := n1 + n2, repoCalls := 2 }
          | Except.error (DbErr.validationFailed m) =>
            { resp := { status := 500, message := some "Server error", error := some m },
              db := dbAtInsert, uploadCalls := n1 + n2, repoCalls := 2 }

/-- The GET handler, Server.js lines 151 to 163: an exact match lookup of
the path key against username, 404 when absent. -/
def get_profile (db : List ProfileDoc) (profileKey : String) : Resp :=
  match findOneExact db profileKey with
  | none => { status := 404, message := some "Profile not found" }
  | some p => { status := 200, profile := some p }

/-- Whether a stored document matches the anchored case insensitive
pattern on its username, as the regex filters of the delete and update
handlers do; a document without a username matches nothing. -/
def docMatches (pat : String) (p : ProfileDoc) : Bool :=
  match p.username with
  | some u => usernameMatches pat u
  | none => false

/-- findOneAndDelete with the regex filter: the first matching document is
removed and returned. -/
def findOneAndDeleteGo (pat : String) : List ProfileDoc → Option ProfileDoc × List ProfileDoc
  | [] => (none, [])
  | p :: rest =>
    if docMatches pat p then (some p, rest)
    else
      match findOneAndDeleteGo pat rest with
      | (r, rest2) => (r, p :: rest2)

/-- The DELETE handler, Server.js lines 166 to 182: the first hyphen of
the path key is replaced by a space and the result is spliced into an
anchored case insensitive pattern. -/
def delete_profile (db : List ProfileDoc) (profileKey : String) : Resp × List ProfileDoc :=
  match findOneAndDeleteGo (jsReplaceFirstHyphen profileKey) db with
  | (none, _) => ({ status := 404, message := some "Profile not found" }, db)
  | (some _, db2) => ({ status := 200, message := some "Profile deleted successfully" }, db2)

def skipWs (l : List Char) : List Char := l.dropWhile jsIsWs

def lbrace : Char := Char.ofNat 123

def rbrace : Char := Char.ofNat 125

/-- Body of a JSON string literal without escape sequences: consume up to
the closing quote. -/
def takeJStringBody : List Char → Option (List Char × List Char)
  | [] => none
  | c :: cs =>
    if c = '"' then some ([], cs)
    else if c = '\\' then none
    else
      match takeJStringBody cs with
      | some (s, r) => some (c :: s, r)
      | none => none

def parseJString : List Char → Option (String × List Char)
  | [] => none
  | c :: cs =>
    if c = '"' then
      match takeJStringBody cs with
      | some (s, r) => some (String.mk s, r)
      | none => none
    else none

/-- Members of a flat JSON object of string fields: string colon string
pairs separated by commas, ending at the closing brace. Fueled recursion;
every call site passes fuel of at least the input length. -/
def parseMembers : Nat → List Char → Option (List (String × String) × List Char)
  | 0, _ => none
  | fuel + 1, l =>
    match parseJString l with
    | none => none
    | some (k, r1) =>
      match skipWs r1 with
      | ':' :: r3 =>
        match parseJString (skipWs r3) with
        | none => none
        | some (v, r5) =>
          match skipWs r5 with
          | c :: r7 =>
            if c = ',' then
              match parseMembers fuel (skipWs r7) with
              | some (ms, rest) => some ((k, v) :: ms, rest)
              | none => none
            else if c = rbrace then some ([(k, v)], r7)
            else none
          | [] => none
      | _ => none

def setLink (l : SocialLinks) (k v : String) : SocialLinks :=
  if k = "website" then { l with website := some v }
  else if k = "instagram" then { l with instagram := some v }
  else if k = "facebook" then { l with facebook := some v }
  else if k = "telegram" then { l with telegram := some v }
  else if k = "tiktok" then { l with tiktok := some v }
  else if k = "youtube" then { l with youtube := some v }
  else if k = "whatsapp" then { l with whatsapp := some v }
  else if k = "maps" then { l with maps := some v }
  else if k = "snapchat" then { l with snapchat := some v }
  else l

def jsonSyntaxError : String := "Unexpected token in JSON"

/-- Model of the built in JSON parse applied to the socialLinks field,
composed with the cast into the socialLinks subdocument, for the fragment
the endpoint exchanges: a flat object whose keys and values are string
literals without escape sequences. Input outside that fragment yields an
error, modelling the SyntaxError the built in parser throws on malformed
text. -/
def parseSocialLinks (s : String) : Except String SocialLinks :=
  match skipWs s.data with
  | [] => Except.error jsonSyntaxError
  | c :: rest =>
    if c = lbrace then
      match skipWs rest with
      | [] => Except.error jsonSyntaxError
      | d :: rest2 =>
        if d = rbrace then
          if (skipWs rest2).isEmpty then Except.ok emptySocialLinks
          else Except.error jsonSyntaxError
        else
          match parseMembers (rest.length + 1) (skipWs rest) with
          | some (ms, rest3) =>
            if (skipWs rest3).isEmpty then
              Except.ok (ms.foldl (fun acc kv => setLink acc kv.1 kv.2) emptySocialLinks)
            else Except.error jsonSyntaxError
          | none => Except.error jsonSyntaxError
    else Except.error jsonSyntaxError

/-- The update request: body fields, the socialLinks field as the
serialized string it arrives as, the image URL strings passed through the
body, and the two optional file buffers. -/
structure UpdateReq where
  username : Option String
  name : Option String
  jobTitle : Option String
  phone : Option String
  email : Option String
  isVerified : Option Bool
  isCompany : Option Bool
  socialLinks : Option String
  profileImage : Option String
  headerImage : Option String
  profileImageFile : Option (List Nat)
  headerImageFile : Option (List Nat)
deriving DecidableEq, Repr

/-- Outcome of the update handler: either a response together with the
repository afterwards, or an exception that escaped the handler because it
was thrown before the try block began. -/
inductive UpdateOutcome where
  | uncaughtException (e : String)
  | response (r : Resp) (db : List ProfileDoc)
deriving DecidableEq, Repr

def UpdateOutcome.statusOf : UpdateOutcome → Option Nat
  | UpdateOutcome.uncaughtException _ => none
  | UpdateOutcome.response r _ => some r.status

/-- The replacement document the update handler passes to
findOneAndUpdate, Server.js lines 231 to 242. Per the repository contract
of the spec the matched document is replaced wholesale, so paths absent
from this document are absent afterwards and the Boolean paths fall back
to the schema default. -/
def docFromUpdate (req : UpdateReq) (pUrl hUrl : Option String) (links : SocialLinks) : ProfileDoc :=
  { username := req.username, name := req.name, jobTitle := req.jobTitle,
    profileImage := pUrl, headerImage := hUrl,
    phone := req.phone, email := req.email,
    isVerified := req.isVerified.getD false, isCompany := req.isCompany.getD false,
    socialLinks := links }

/-- findOneAndUpdate with the regex filter and the new flag: the first
matching document is replaced wholesale and the new document returned. -/
def findOneAndUpdateGo (pat : String) (newDoc : ProfileDoc) :
    List ProfileDoc → Option (List ProfileDoc)
  | [] => none
  | p :: rest =>
    if docMatches pat p then some (newDoc :: rest)
    else
      match findOneAndUpdateGo pat newDoc rest with
      | some rest2 => some (p :: rest2)
      | none => none

/-- One image slot of the update handler: the URL defaults to the string
passed through the body and is overwritten by a fresh upload result when a
file is attached; the upload may fail. -/
def uploadOrKeep (upload : List Nat → Except String String)
    (file : Option (List Nat)) (fallback : Option String) : Except String (Option String) :=
  match file with
  | none => Except.ok fallback
  | some buf =>
    match upload buf with
    | Except.ok url => Except.ok (some url)
    | Except.error e => Except.error e

/-- The PUT update-profile handler, Server.js lines 185 to 255. The
socialLinks string is parsed before the try block begins, so a parse
failure escapes the handler as an uncaught exception instead of producing
a response. Image URLs default to the body strings and are overwritten by
fresh upload results when files are attached; an upload failure is caught
and answered with a 500. The filter splices the raw path key into an
anchored case insensitive pattern without escaping. -/
def update_profile (upload : List Nat → Except String String)
    (db : List ProfileDoc) (profileKey : String) (req : UpdateReq) : UpdateOutcome :=
  match (match req.socialLinks with
         | none => Except.ok emptySocialLinks
         | some s => parseSocialLinks s) with
  | Except.error e => UpdateOutcome.uncaughtException e
  | Except.ok links =>
    match uploadOrKeep upload req.profileImageFile req.profileImage with
    | Except.error e =>
      UpdateOutcome.response
        { status := 500, message := some "Error updating profile", error := some e } db
    | Except.ok pUrl =>
      match uploadOrKeep upload req.headerImageFile req.headerImage with
      | Except.error e =>
        UpdateOutcome.response
          { status := 500, message := some "Error updating profile", error := some e } db
      | Except.ok hUrl =>
        match findOneAndUpdateGo profileKey (docFromUpdate req pUrl hUrl links) db with
        | none => UpdateOutcome.response { status := 404, message := some "Profile not found" } db
        | some db2 =>
          UpdateOutcome.response
            { status := 200, profile := some (docFromUpdate req pUrl hUrl links) } db2

/-- An image store oracle that is never consulted in the runs that use it:
every call fails. -/
def noUpload : List Nat → Except String String := fun _ => Except.error "no upload in this run"

/-- An image store oracle whose uploads always fail with a fixed message. -/
def failUpload : List Nat → Except String String := fun _ => Except.error "upload failed"

/-- A stored profile with the given username and otherwise fixed data, as
the sample repository contents of the concrete theorems. -/
def sampleDoc (un : String) : ProfileDoc :=
  { username := some un, name := some "Jane", jobTitle := some "Eng",
    profileImage := some "", headerImage := some "",
    phone := none, email := none, isVerified := false, isCompany := false,
    socialLinks := emptySocialLinks }

def c7CreateReq : CreateReq :=
  { username := some "jane-doe", name := some "Jane", jobTitle := some "Eng",
    phone := none, email := none, isVerified := none, isCompany := none,
    socialLinks := none, profileImageFile := none, headerImageFile := none }

def c3CreateReq : CreateReq :=
  { username := none, name := some "Jane", jobTitle := some "Eng",
    phone := none, email := none, isVerified := none, isCompany := none,
    socialLinks := none, profileImageFile := none, headerImageFile := none }

def c4CreateReq : CreateReq :=
  { username := some "bobby", name := some "Bob", jobTitle := some "Dev",
    phone := none, email := none, isVerified := none, isCompany := none,
    socialLinks := none, profileImageFile := none, headerImageFile := none }

def c6CreateReq : CreateReq :=
  { username := some "carol", name := some "Carol", jobTitle := some "Dev",
    phone := none, email := none, isVerified := none, isCompany := none,
    socialLinks := none, profileImageFile := some [1, 2], headerImageFile := none }

def c8CreateReq : CreateReq :=
  { username := some "alice", name := none, jobTitle := some "Eng",
    phone := none, email := none, isVerified := none, isCompany := none,
    socialLinks := none, profileImageFile := none, headerImageFile := none }

def c9CreateReq : CreateReq :=
  { username := some "Jane  Doe", name := some "Jane", jobTitle := some "Eng",
    phone := none, email := none, isVerified := none, isCompany := none,
    socialLinks := none, profileImageFile := none, headerImageFile := none }

def c1UpdateReq : UpdateReq :=
  { username := some "jane doe", name := some "Janet", jobTitle := some "Mgr",
    phone := none, email := none, isVerified := none, isCompany := none,
    socialLinks := none, profileImage := none, headerImage := none,
    profileImageFile := none, headerImageFile := none }

def c5UpdateReq : UpdateReq :=
  { username := some "jane", name := some "Jane", jobTitle := some "Eng",
    phone := none, email := none, isVerified := none, isCompany := none,
    socialLinks := some "\x7b", profileImage := none, headerImage := none,
    profileImageFile := none, headerImageFile := none }

def c10UpdateReq : UpdateReq :=
  { username := some "janedoe2", name := some "New", jobTitle := some "Dev",
    phone := none, email := none, isVerified := none, isCompany := none,
    socialLinks := none, profileImage := none, headerImage := none,
    profileImageFile := none, headerImageFile := none }

theorem regexMatchCI_of_toLower_eq :
    ∀ kd ud : List Char, kd.map Char.toLower = ud.map Char.toLower → regexMatchCI kd ud = true := by
  intro kd
  induction kd with
  | nil =>
    intro ud h
    cases ud with
    | nil => rfl
    | cons c cs => simp at h
  | cons k ks ih =>
    intro ud h
    cases ud with
    | nil => simp at h
    | cons c cs =>
      simp only [List.map_cons, List.cons.injEq] at h
      simp [regexMatchCI, patCharMatch, h.1, ih cs h.2]

theorem usernameMatches_of_ci_eq (pat u : String) (h : jsToLower pat = jsToLower u) :
    usernameMatches pat u = true := by
  apply regexMatchCI_of_toLower_eq
  have h2 := congrArg String.data h
  simpa [jsToLower] using h2

theorem findOneAndUpdateGo_append (pat : String) (nd : ProfileDoc) :
    ∀ (pre : List ProfileDoc) (p : ProfileDoc) (post : List ProfileDoc),
      (∀ q ∈ pre, docMatches pat q = false) → docMatches pat p = true →
      findOneAndUpdateGo pat nd (pre ++ p :: post) = some (pre ++ nd :: post) := by
  intro pre
  induction pre with
  | nil =>
    intro p post _ hp
    simp [findOneAndUpdateGo, hp]
  | cons q qs ih =>
    intro p post hpre hp
    have hq : docMatches pat q = false := hpre q (by simp)
    have hrest := ih p post (fun r hr => hpre r (by simp [hr])) hp
    simp [findOneAndUpdateGo, hq, hrest]

theorem findOneAndDeleteGo_append (pat : String) :
    ∀ (pre : List ProfileDoc) (p : ProfileDoc) (post : List ProfileDoc),
      (∀ q ∈ pre, docMatches pat q = false) → docMatches pat p = true →
      findOneAndDeleteGo pat (pre ++ p :: post) = (some p, pre ++ post) := by
  intro pre
  induction pre with
  | nil =>
    intro p post _ hp
    simp [findOneAndDeleteGo, hp]
  | cons q qs ih =>
    intro p post hpre hp
    have hq : docMatches pat q = false := hpre q (by simp)
    have hrest := ih p post (fun r hr => hpre r (by simp [hr])) hp
    simp [findOneAndDeleteGo, hq, hrest]

theorem findOneAndDeleteGo_none (pat : String) :
    ∀ db : List ProfileDoc, (∀ q ∈ db, docMatches pat q = false) →
      findOneAndDeleteGo pat db = (none, db) := by
  intro db
  induction db with
  | nil => intro _; rfl
  | cons q qs ih =>
    intro hall
    have hq : docMatches pat q = false := hall q (by simp)
    have hrest := ih (fun r hr => hall r (by simp [hr]))
    simp [findOneAndDeleteGo, hq, hrest]

theorem nonempty_of_trimmed_len (u : String) (h : 3 ≤ (jsTrim u).data.length) :
    u.data.isEmpty = false := by
  cases u with
  | mk d =>
    cases d with
    | nil => simp [jsTrim] at h
    | cons a l => rfl

theorem usernameOk_of_len (u : String) (h : 3 ≤ (jsTrim u).data.length) :
    usernameMissingOrShort (some u) = false := by
  have hne := nonempty_of_trimmed_len u h
  simp only [usernameMissingOrShort, hne, Bool.false_or, decide_eq_false_iff_not]
  omega

/-- C1: when the update path key matches the username of a stored profile
case insensitively, the handler replaces that document wholesale with the
supplied values, and in particular the stored phone becomes the request
phone, so a request omitting phone overwrites the stored phone with
absent rather than preserving it. -/
theorem update_wholesale_replacement
    (upload : List Nat → Except String String) (key : String) (req : UpdateReq)
    (pre post : List ProfileDoc) (p : ProfileDoc) (un : String)
    (_hkey : modelValidKey key = true)
    (hsl : req.socialLinks = none)
    (hpf : req.profileImageFile = none) (hhf : req.headerImageFile = none)
    (hpre : ∀ q ∈ pre, docMatches key q = false)
    (hun : p.username = some un)
    (hci : jsToLower key = jsToLower un) :
    update_profile upload (pre ++ p :: post) key req =
      UpdateOutcome.response
        { status := 200,
          profile := some (docFromUpdate req req.profileImage req.headerImage emptySocialLinks) }
        (pre ++ docFromUpdate req req.profileImage req.headerImage emptySocialLinks :: post) ∧
    (docFromUpdate req req.profileImage req.headerImage emptySocialLinks).phone = req.phone := by
  constructor
  · have hmatch : docMatches key p = true := by
      simp [docMatches, hun, usernameMatches_of_ci_eq key un hci]
    have hupd := findOneAndUpdateGo_append key
      (docFromUpdate req req.profileImage req.headerImage emptySocialLinks) pre p post hpre hmatch
    simp [update_profile, hsl, hpf, hhf, uploadOrKeep, hupd]
  · rfl

/-- C1 witness: a concrete run of the update against a store holding the
username Jane Doe, addressed by the key jAnE dOe, with phone omitted. -/
theorem update_wholesale_replacement_witness :
    update_profile noUpload [sampleDoc "Jane Doe"] "jAnE dOe" c1UpdateReq =
      UpdateOutcome.response
        { status := 200, profile := some (docFromUpdate c1UpdateReq none none emptySocialLinks) }
        [docFromUpdate c1UpdateReq none none emptySocialLinks] ∧
    (docFromUpdate c1UpdateReq none none emptySocialLinks).phone = none := by
  have h := update_wholesale_replacement noUpload "jAnE dOe" c1UpdateReq [] []
    (sampleDoc "Jane Doe") "Jane Doe" (by decide) rfl rfl rfl
    (by intro q hq; cases hq) rfl (by decide)
  simpa using h

/-- C2: the delete key has only its first hyphen replaced by a space, the
result is matched case insensitively as an exact pattern against stored
usernames, the first matching record is deleted, and with no matching
record the handler answers 404 leaving the store unchanged. -/
theorem delete_first_hyphen_policy :
    jsReplaceFirstHyphen "john-smith" = "john smith" ∧
    jsReplaceFirstHyphen "john-smith-jr" = "john smith-jr" ∧
    usernameMatches (jsReplaceFirstHyphen "john-smith") "John Smith" = true ∧
    (∀ (key : String) (pre post : List ProfileDoc) (p : ProfileDoc),
      modelValidKey key = true →
      (∀ q ∈ pre, docMatches (jsReplaceFirstHyphen key) q = false) →
      docMatches (jsReplaceFirstHyphen key) p = true →
      delete_profile (pre ++ p :: post) key =
        ({ status := 200, message := some "Profile deleted successfully" }, pre ++ post)) ∧
    (∀ (key : String) (db : List ProfileDoc),
      modelValidKey key = true →
      (∀ q ∈ db, docMatches (jsReplaceFirstHyphen key) q = false) →
      delete_profile db key = ({ status := 404, message := some "Profile not found" }, db)) := by
  refine ⟨by decide, by decide, by decide, ?_, ?_⟩
  · intro key pre post p _ hpre hp
    have h := findOneAndDeleteGo_append (jsReplaceFirstHyphen key) pre p post hpre hp
    simp [delete_profile, h]
  · intro key db _ hall
    have h := findOneAndDeleteGo_none (jsReplaceFirstHyphen key) db hall
    simp [delete_profile, h]

/-- C2 witness: the key john-smith deletes the stored username John Smith,
while the key john-smith-jr does not match the stored username
john smith jr because only the first hyphen is substituted. -/
theorem delete_first_hyphen_policy_witness :
    delete_profile [sampleDoc "John Smith"] "john-smith" =
      ({ status := 200, message := some "Profile deleted successfully" }, []) ∧
    delete_profile [sampleDoc "john smith jr"] "john-smith-jr" =
      ({ status := 404, message := some "Profile not found" }, [sampleDoc "john smith jr"]) := by
  constructor
  · have h := delete_first_hyphen_policy.2.2.2.1 "john-smith" [] [] (sampleDoc "John Smith")
      (by decide) (by intro q hq; cases hq) (by decide)
    simpa using h
  · exact delete_first_hyphen_policy.2.2.2.2 "john-smith-jr" [sampleDoc "john smith jr"]
      (by decide)
      (by intro q hq; rw [List.mem_singleton] at hq; subst hq; decide)

/-- C3: a create request whose username is missing or shorter than 3
characters after trimming is rejected with a 400 and performs no image
upload call and no repository call, leaving the store unchanged. -/
theorem create_short_username_rejected
    (upload : List Nat → Except String String) (db : List ProfileDoc) (req : CreateReq)
    (h : req.username = none ∨ ∃ u, req.username = some u ∧ (jsTrim u).data.length < 3) :
    (save_profile upload db db req).resp.status = 400 ∧
    (save_profile upload db db req).uploadCalls = 0 ∧
    (save_profile upload db db req).repoCalls = 0 ∧
    (save_profile upload db db req).db = db := by
  have hb : usernameMissingOrShort req.username = true := by
    rcases h with h | ⟨u, hu, hlt⟩
    · simp [usernameMissingOrShort, h]
    · simp [usernameMissingOrShort, hu]
      exact Or.inr hlt
  simp [save_profile, hb]

/-- C3 witness: a concrete create request with no username. -/
theorem create_short_username_rejected_witness :
    (save_profile noUpload [] [] c3CreateReq).resp.status = 400 ∧
    (save_profile noUpload [] [] c3CreateReq).uploadCalls = 0 ∧
    (save_profile noUpload [] [] c3CreateReq).repoCalls = 0 ∧
    (save_profile noUpload [] [] c3CreateReq).db = [] := by
  exact create_short_username_rejected noUpload [] c3CreateReq (Or.inl rfl)

/-- C4: a create whose username exactly equals a stored username fails
with a 400 conflict before any upload and leaves the store unchanged, and
a duplicate key violation raised by the insert itself, when a concurrent
insert committed between the pre check and the save, is mapped to the same
400 conflict status. -/
theorem create_duplicate_username_conflict :
    (∀ (upload : List Nat → Except String String) (db : List ProfileDoc)
        (req : CreateReq) (u : String),
      req.username = some u → 3 ≤ (jsTrim u).data.length →
      (∃ p ∈ db, p.username = some u) →
      (save_profile upload db db req).resp.status = 400 ∧
      (save_profile upload db db req).uploadCalls = 0 ∧
      (save_profile upload db db req).db = db) ∧
    (∀ (upload : List Nat → Except String String) (db dbAtInsert : List ProfileDoc)
        (req : CreateReq) (u : String),
      req.username = some u → 3 ≤ (jsTrim u).data.length →
      findOneExact db u = none →
      req.profileImageFile = none → req.headerImageFile = none →
      presentStr req.name = true → presentStr req.jobTitle = true →
      (∃ q ∈ dbAtInsert, q.username = some u) →
      (save_profile upload db dbAtInsert req).resp.status = 400) := by
  constructor
  · intro upload db req u hu hlen hdup
    have hb := usernameOk_of_len u hlen
    have hsome : (findOneExact db u).isSome = true := by
      rcases hdup with ⟨p, hp, hpu⟩
      exact List.find?_isSome.mpr ⟨p, hp, by simp [hpu]⟩
    rcases Option.isSome_iff_exists.mp hsome with ⟨w, hw⟩
    simp [save_profile, hb, hu, hw]
  · intro upload db dbAtInsert req u hu hlen hnone hpf hhf hname hjob hrace
    have hb := usernameOk_of_len u hlen
    have hne := nonempty_of_trimmed_len u hlen
    have husr : presentStr (some u) = true := by simp [presentStr, hne]
    have hval : validateDoc (docFromCreate req "" "") = true := by
      simp only [validateDoc, docFromCreate, hu, Bool.and_eq_true]
      exact ⟨⟨husr, hname⟩, hjob⟩
    have hany : dbAtInsert.any (fun p => p.username == (docFromCreate req "" "").username) = true := by
      rcases hrace with ⟨q, hq, hqu⟩
      refine List.any_eq_true.mpr ⟨q, hq, ?_⟩
      simp [docFromCreate, hu, hqu]
    simp [save_profile, hb, hu, hnone, hpf, hhf, uploadOne, insertDoc, hval, hany]

/-- C4 witness: a concrete duplicate in the sequential case and a concrete
duplicate key violation in the raced case, both answered 400. -/
theorem create_duplicate_username_conflict_witness :
    (save_profile noUpload [sampleDoc "bobby"] [sampleDoc "bobby"] c4CreateReq).resp.status = 400 ∧
    (save_profile noUpload [sampleDoc "bobby"] [sampleDoc "bobby"] c4CreateReq).uploadCalls = 0 ∧
    (save_profile noUpload [sampleDoc "bobby"] [sampleDoc "bobby"] c4CreateReq).db = [sampleDoc "bobby"] ∧
    (save_profile noUpload [] [sampleDoc "bobby"] c4CreateReq).resp.status = 400 := by
  have h1 := create_duplicate_username_conflict.1 noUpload [sampleDoc "bobby"] c4CreateReq "bobby"
    rfl (by decide) ⟨sampleDoc "bobby", by simp, rfl⟩
  have h2 := create_duplicate_username_conflict.2 noUpload [] [sampleDoc "bobby"] c4CreateReq "bobby"
    rfl (by decide) rfl rfl rfl (by decide) (by decide) ⟨sampleDoc "bobby", by simp, rfl⟩
  exact ⟨h1.1, h1.2.1, h1.2.2, h2⟩

/-- C6: when an image upload fails during create, for the profile image or
for the header image, the handler answers 500 with the store error
surfaced in the error field, and no document is inserted, the repository
being left unchanged. -/
theorem create_upload_failure_aborts
    (upload : List Nat → Except String String) (db : List ProfileDoc)
    (req : CreateReq) (u e : String)
    (hu : req.username = some u) (hlen : 3 ≤ (jsTrim u).data.length)
    (hnone : findOneExact db u = none)
    (hfail : uploadOne upload req.profileImageFile = Except.error e ∨
      (∃ r, uploadOne upload req.profileImageFile = Except.ok r ∧
            uploadOne upload req.headerImageFile = Except.error e)) :
    (save_profile upload db db req).resp.status = 500 ∧
    (save_profile upload db db req).resp.error = some e ∧
    (save_profile upload db db req).db = db := by
  have hb := usernameOk_of_len u hlen
  rcases hfail with hf | ⟨r, hok, hf⟩
  · simp [save_profile, hb, hu, hnone, hf]
  · obtain ⟨pu, n1⟩ := r
    simp [save_profile, hb, hu, hnone, hok, hf]

/-- C6 witness: a concrete create whose profile image upload fails. -/
theorem create_upload_failure_aborts_witness :
    (save_profile failUpload [] [] c6CreateReq).resp.status = 500 ∧
    (save_profile failUpload [] [] c6CreateReq).resp.error = some "upload failed" ∧
    (save_profile failUpload [] [] c6CreateReq).db = [] := by
  exact create_upload_failure_aborts failUpload [] c6CreateReq "carol" "upload failed"
    rfl (by decide) rfl (Or.inl rfl)

/-- C7: creating the profile jane-doe with name Jane, jobTitle Eng and no
image payloads and then reading the path key jane-doe, which is looked up
as an exact match against username, returns the record with empty image
URLs and the same other fields as supplied at creation. -/
theorem create_then_read_roundtrip :
    (save_profile noUpload [] [] c7CreateReq).resp.status = 201 ∧
    (get_profile (save_profile noUpload [] [] c7CreateReq).db "jane-doe").status = 200 ∧
    (get_profile (save_profile noUpload [] [] c7CreateReq).db "jane-doe").profile =
      some { username := some "jane-doe", name := some "Jane", jobTitle := some "Eng",
             profileImage := some "", headerImage := some "",
             phone := none, email := none, isVerified := false, isCompany := false,
             socialLinks := emptySocialLinks } := by
  decide

/-- C8 counterexample: a concrete create request missing the required name
is answered with a 500, not with the 400 the claim states, because the
catch maps only duplicate key errors to 400. -/
theorem create_missing_name_answered_500_not_400 :
    (save_profile noUpload [] [] c8CreateReq).resp.status = 500 ∧
    (save_profile noUpload [] [] c8CreateReq).resp.status ≠ 400 := by
  decide

/-- C8 amended: a create request missing the required name or jobTitle
fails, but the schema validation error thrown by save is mapped by the
generic catch to a 500 response, not to the 400 the error taxonomy
prescribes, and the store is left unchanged. -/
theorem create_missing_required_maps_to_500
    (upload : List Nat → Except String String) (db : List ProfileDoc)
    (req : CreateReq) (u : String)
    (hu : req.username = some u) (hlen : 3 ≤ (jsTrim u).data.length)
    (hnone : findOneExact db u = none)
    (hpf : req.profileImageFile = none) (hhf : req.headerImageFile = none)
    (hmiss : req.name = none ∨ req.jobTitle = none) :
    (save_profile upload db db req).resp.status = 500 ∧
    (save_profile upload db db req).resp.status ≠ 400 ∧
    (save_profile upload db db req).db = db := by
  have hb := usernameOk_of_len u hlen
  have hval : validateDoc (docFromCreate req "" "") = false := by
    rcases hmiss with h | h
    · simp [validateDoc, docFromCreate, h, presentStr]
    · simp [validateDoc, docFromCreate, h, presentStr]
  simp [save_profile, hb, hu, hnone, hpf, hhf, uploadOne, insertDoc, hval]

/-- C8 amended witness: the concrete request missing name. -/
theorem create_missing_required_maps_to_500_witness :
    (save_profile noUpload [] [] c8CreateReq).resp.status = 500 ∧
    (save_profile noUpload [] [] c8CreateReq).resp.status ≠ 400 ∧
    (save_profile noUpload [] [] c8CreateReq).db = [] := by
  exact create_missing_required_maps_to_500 noUpload [] c8CreateReq "alice"
    rfl (by decide) rfl rfl rfl (Or.inl rfl)

/-- C5 counterexample: a concrete update whose socialLinks string is the
single opening brace, which is malformed, is not answered with a 400: the
parse error escapes the handler uncaught before the try block begins, so
no response at all is produced. -/
theorem update_malformed_socialLinks_not_400 :
    update_profile noUpload [sampleDoc "jane"] "jane" c5UpdateReq =
      UpdateOutcome.uncaughtException jsonSyntaxError ∧
    (update_profile noUpload [sampleDoc "jane"] "jane" c5UpdateReq).statusOf ≠ some 400 := by
  decide

/-- C5 amended: when socialLinks arrives as a malformed serialized value,
the JSON parse throws before the try block, so the exception escapes the
handler uncaught and no response, in particular no 400 response, is
produced. -/
theorem update_malformed_socialLinks_uncaught
    (upload : List Nat → Except String String) (db : List ProfileDoc)
    (key : String) (req : UpdateReq) (s e : String)
    (hs : req.socialLinks = some s) (hp : parseSocialLinks s = Except.error e) :
    update_profile upload db key req = UpdateOutcome.uncaughtException e ∧
    (update_profile upload db key req).statusOf ≠ some 400 := by
  refine ⟨?_, ?_⟩
  · simp [update_profile, hs, hp]
  · simp [update_profile, hs, hp, UpdateOutcome.statusOf]

/-- C5 amended witness: the concrete malformed string. -/
theorem update_malformed_socialLinks_uncaught_witness :
    update_profile noUpload [] "jane" c5UpdateReq = UpdateOutcome.uncaughtException jsonSyntaxError ∧
    (update_profile noUpload [] "jane" c5UpdateReq).statusOf ≠ some 400 := by
  exact update_malformed_socialLinks_uncaught noUpload [] "jane" c5UpdateReq "\x7b"
    jsonSyntaxError rfl rfl

/-- C9: for a create passing validation, the returned profileKey equals
toProfileKey of the username, the lower cased username with each
whitespace run collapsed to one hyphen, illustrated on concrete inputs;
the inserted document is docFromCreate, which carries no profileKey field,
and the read response never carries a profileKey, so the key exists only
in the create response. -/
theorem create_profileKey_derived_not_persisted :
    toProfileKey "Jane  Doe" = "jane-doe" ∧
    toProfileKey "A b\tC" = "a-b-c" ∧
    (∀ (db : List ProfileDoc) (k : String), (get_profile db k).profileKey = none) ∧
    (∀ (upload : List Nat → Except String String) (db : List ProfileDoc)
        (req : CreateReq) (u pu hu2 : String) (n1 n2 : Nat),
      req.username = some u → 3 ≤ (jsTrim u).data.length →
      findOneExact db u = none →
      uploadOne upload req.profileImageFile = Except.ok (pu, n1) →
      uploadOne upload req.headerImageFile = Except.ok (hu2, n2) →
      presentStr req.name = true → presentStr req.jobTitle = true →
      (save_profile upload db db req).resp.status = 201 ∧
      (save_profile upload db db req).resp.profileKey = some (toProfileKey u) ∧
      (save_profile upload db db req).db = db ++ [docFromCreate req pu hu2]) := by
  refine ⟨by decide, by decide, ?_, ?_⟩
  · intro db k
    cases h : findOneExact db k <;> simp [get_profile, h]
  · intro upload db req u pu hu2 n1 n2 hu hlen hnone hokp hokh hname hjob
    have hb := usernameOk_of_len u hlen
    have hne := nonempty_of_trimmed_len u hlen
    have husr : presentStr (some u) = true := by simp [presentStr, hne]
    have hval : validateDoc (docFromCreate req pu hu2) = true := by
      simp only [validateDoc, docFromCreate, hu, Bool.and_eq_true]
      exact ⟨⟨husr, hname⟩, hjob⟩
    have hany : db.any (fun p => p.username == (docFromCreate req pu hu2).username) = false := by
      rw [List.any_eq_false]
      intro p hp
      have hfind := List.find?_eq_none.mp hnone p hp
      simpa [docFromCreate, hu] using hfind
    simp [save_profile, hb, hu, hnone, hokp, hokh, insertDoc, hval, hany]

/-- C9 witness: the concrete username Jane  Doe, whose double space
collapses to a single hyphen in the returned key jane-doe. -/
theorem create_profileKey_derived_not_persisted_witness :
    (save_profile noUpload [] [] c9CreateReq).resp.status = 201 ∧
    (save_profile noUpload [] [] c9CreateReq).resp.profileKey = some "jane-doe" ∧
    (save_profile noUpload [] [] c9CreateReq).db = [docFromCreate c9CreateReq "" ""] := by
  have h := create_profileKey_derived_not_persisted.2.2.2 noUpload [] c9CreateReq
    "Jane  Doe" "" "" 0 0 rfl (by decide) rfl rfl rfl (by decide) (by decide)
  obtain ⟨h1, h2, h3⟩ := h
  refine ⟨h1, ?_, by simpa using h3⟩
  rw [h2]
  decide

/-- C10: the delete and update filters splice the raw path key into a
regular expression without escaping metacharacters, so the key jane.doe,
whose dot acts as a wildcard, matches the stored username janeXdoe, which
is not literally equal to the key even after hyphen substitution and case
folding, and the record is deleted respectively replaced. -/
theorem regex_metachar_unescaped_cross_match :
    jsReplaceFirstHyphen "jane.doe" = "jane.doe" ∧
    jsToLower "janeXdoe" ≠ jsToLower "jane.doe" ∧
    delete_profile [sampleDoc "janeXdoe"] "jane.doe" =
      ({ status := 200, message := some "Profile deleted successfully" }, []) ∧
    update_profile noUpload [sampleDoc "janeXdoe"] "jane.doe" c10UpdateReq =
      UpdateOutcome.response
        { status := 200, profile := some (docFromUpdate c10UpdateReq none none emptySocialLinks) }
        [docFromUpdate c10UpdateReq none none emptySocialLinks] := by
  decide
